import Mathlib

/-!
Shallow embedding of the `Pilot` differential-drive class from
`src/robotabor.py`, together with proofs of the specification claims.

Modelling conventions:
* Python floats are modelled as exact rationals (`ℚ`); `math.pi` is the
  IEEE-754 double actually used by the program, whose exact rational value
  is `884279719003555 / 2^48`.
* Python's built-in `round` rounds half to even; `pyRound` implements that.
* A Pilot method is modelled as a function from the pilot's attribute state
  (and, for the heading queries, the motors' reported angles) to the list of
  motor commands it issues, in order.  Methods that can raise are modelled
  with `Except String`; the string names the Python exception class
  (`ValueError` for the explicit raise in `steer`, `ZeroDivisionError` for
  the float division `math.radians(angle) / abs(omega)` when `omega == 0`,
  which raises in Python).
* None of the modelled methods assigns any attribute except `reset_angle`
  (which writes `_angle_offset`) and `set_speed` (which writes `speed`), so
  the other methods take the state purely as input.
-/

/-- The exact rational value of the IEEE-754 double `math.pi`
(`884279719003555 * 2⁻⁴⁸`). -/
def mathPi : ℚ := 884279719003555 / 281474976710656

/-- Python's built-in `round`: nearest integer, ties to even. -/
def pyRound (x : ℚ) : ℤ :=
  if Int.fract x = 1/2 then
    (if Even ⌊x⌋ then ⌊x⌋ else ⌊x⌋ + 1)
  else
    round x

/-- One command sent to a single motor (the Motor capability of §6). -/
inductive MotorCmd where
  | runAtSpeed (speedDegPerSec : ℤ)
  | rotateByAngle (deltaDeg : ℤ) (speedDegPerSec : ℤ) (stopBehavior : ℤ)
  | waitForMovement (timeoutMs : Option ℚ)
  | brake
  deriving DecidableEq

/-- Which of the two motors a command goes to. -/
inductive Side where
  | left
  | right
  deriving DecidableEq

/-- A trace of issued motor commands, in program order. -/
abbrev Trace := List (Side × MotorCmd)

/-- The attribute state of a `Pilot` (`wheel_diameter`, `axle_width`,
`reverse`, `speed`, `_angle_offset`).  The two motor references are not
state; their readings enter as explicit arguments where the code queries
them. -/
structure PilotState where
  wheel_diameter : ℚ
  axle_width : ℚ
  reverse : Bool
  speed : ℚ
  angle_offset : ℚ
  deriving DecidableEq

/-- `Pilot.__init__`: stores the geometry and direction flag, sets
`speed = 400`, and captures `_angle_offset = left.current_angle() -
right.current_angle()`. -/
def PilotState.init (wheel_diameter axle_width : ℚ) (reverse : Bool)
    (leftAngle rightAngle : ℚ) : PilotState :=
  { wheel_diameter := wheel_diameter
    axle_width := axle_width
    reverse := reverse
    speed := 400
    angle_offset := leftAngle - rightAngle }

/-- `Pilot._mm_to_deg`: `round(mm * 360 / (math.pi * self.wheel_diameter))`. -/
def PilotState.mm_to_deg (p : PilotState) (mm : ℚ) : ℤ :=
  pyRound (mm * 360 / (mathPi * p.wheel_diameter))

/-- `Pilot.deg_to_mm`: `deg * (math.pi * self.wheel_diameter) / 360`. -/
def PilotState.deg_to_mm (p : PilotState) (deg : ℚ) : ℚ :=
  deg * (mathPi * p.wheel_diameter) / 360

/-- `Pilot._run_motor_at_speeds`: `left.run_at_speed(round(left_speed))`,
then `right.run_at_speed(round(right_speed))`. -/
def run_motor_at_speeds (left_speed right_speed : ℚ) : Trace :=
  [(Side.left, MotorCmd.runAtSpeed (pyRound left_speed)),
   (Side.right, MotorCmd.runAtSpeed (pyRound right_speed))]

/-- `Pilot.forward`: both motors at `direction * speed`,
`direction = -1 if reverse else 1`. -/
def PilotState.forward (p : PilotState) : Trace :=
  run_motor_at_speeds ((if p.reverse then (-1 : ℚ) else 1) * p.speed)
    ((if p.reverse then (-1 : ℚ) else 1) * p.speed)

/-- The pair of `wait_for_movement` calls issued when `wait_until_done`
holds: left first, then right, each with `timeout*1000` when a timeout is
given. -/
def waitCmds (timeout : Option ℚ) : Trace :=
  match timeout with
  | none => [(Side.left, MotorCmd.waitForMovement none),
             (Side.right, MotorCmd.waitForMovement none)]
  | some t => [(Side.left, MotorCmd.waitForMovement (some (t * 1000))),
               (Side.right, MotorCmd.waitForMovement (some (t * 1000)))]

/-- `Pilot.travel`.  `round(degrees)` on the result of `_mm_to_deg` is the
identity, since `_mm_to_deg` already returns an `int`. -/
def PilotState.travel (p : PilotState) (distance : ℚ)
    (wait_until_done : Bool) (timeout : Option ℚ) : Trace :=
  let degrees := p.mm_to_deg distance
  let degrees := if p.reverse then -degrees else degrees
  [(Side.left, MotorCmd.rotateByAngle degrees (pyRound p.speed) 0),
   (Side.right, MotorCmd.rotateByAngle degrees (pyRound p.speed) 0)]
  ++ (if wait_until_done then waitCmds timeout else [])

/-- `Pilot.rotate`. -/
def PilotState.rotate (p : PilotState) (angle : ℚ)
    (wait_until_done : Bool) (timeout : Option ℚ) : Trace :=
  let arc_mm := (angle / 360) * mathPi * p.axle_width
  let degrees := p.mm_to_deg arc_mm
  let left_speed := if p.reverse then -p.speed else p.speed
  let right_speed := -left_speed
  [(Side.left, MotorCmd.rotateByAngle degrees (pyRound left_speed) 0),
   (Side.right, MotorCmd.rotateByAngle (-degrees) (pyRound right_speed) 0)]
  ++ (if wait_until_done then waitCmds timeout else [])

/-- The clamp in `steer`: `max(-200, min(200, turn_rate))`. -/
def clamp200 (turn_rate : ℚ) : ℚ := max (-200) (min 200 turn_rate)

/-- The ratio computed in `steer` from `abs_tr = abs(turn_rate)`. -/
def steerRatio (turn_rate : ℚ) : ℚ :=
  if |turn_rate| ≤ 100 then 1 - |turn_rate| / 100
  else -(|turn_rate| - 100) / 100

/-- The `(left_speed, right_speed)` pair computed in `steer` for a (clamped,
nonzero) `turn_rate`, including the `reverse` negation. -/
def PilotState.steerSpeeds (p : PilotState) (turn_rate : ℚ) : ℚ × ℚ :=
  let ratio := steerRatio turn_rate
  let s := if turn_rate > 0 then (p.speed * ratio, p.speed)
           else (p.speed, p.speed * ratio)
  if p.reverse then (-s.1, -s.2) else s

/-- The signed angular velocity computed in `steer` step 6:
`omega = (v_r_mm - v_l_mm) / axle_width` with each wheel speed converted to
mm/s via `mm_per_deg = pi * wheel_diameter / 360`. -/
def PilotState.steerOmega (p : PilotState) (turn_rate : ℚ) : ℚ :=
  let mm_per_deg := (mathPi * p.wheel_diameter) / 360
  ((p.steerSpeeds turn_rate).2 * mm_per_deg
    - (p.steerSpeeds turn_rate).1 * mm_per_deg) / p.axle_width

/-- `Pilot.steer`.  The guard `steerOmega = 0` models the
`ZeroDivisionError` that Python raises at
`t = math.radians(angle) / abs(omega)` when `omega == 0`
(`math.radians(angle)` is `angle * pi / 180`). -/
def PilotState.steer (p : PilotState) (turn_rate : ℚ) (angle : Option ℚ)
    (wait_until_done : Bool) (timeout : Option ℚ) : Except String Trace :=
  let tr := clamp200 turn_rate
  if tr = 0 then
    match angle with
    | some _ => Except.error "ValueError"
    | none => Except.ok p.forward
  else
    let left_speed := (p.steerSpeeds tr).1
    let right_speed := (p.steerSpeeds tr).2
    match angle with
    | none => Except.ok (run_motor_at_speeds left_speed right_speed)
    | some a =>
      let omega := p.steerOmega tr
      if omega = 0 then Except.error "ZeroDivisionError"
      else
        let t := a * mathPi / 180 / |omega|
        let mm_per_deg := (mathPi * p.wheel_diameter) / 360
        let s_l_mm := left_speed * mm_per_deg * t
        let s_r_mm := right_speed * mm_per_deg * t
        let deg_l := p.mm_to_deg s_l_mm
        let deg_r := p.mm_to_deg s_r_mm
        Except.ok
          ([(Side.left, MotorCmd.rotateByAngle deg_l (pyRound |left_speed|) 0),
            (Side.right, MotorCmd.rotateByAngle deg_r (pyRound |right_speed|) 0)]
           ++ (if wait_until_done then waitCmds timeout else []))

/-- `Pilot.get_angle`, as a function of the two motors' reported angles:
`(left - right - angle_offset) / (math.pi * axle_width * 4) * 360`. -/
def PilotState.get_angle (p : PilotState) (leftAngle rightAngle : ℚ) : ℚ :=
  (leftAngle - rightAngle - p.angle_offset) / (mathPi * p.axle_width * 4) * 360

/-- `Pilot.reset_angle`: recapture `_angle_offset` from the motors'
current readings. -/
def PilotState.reset_angle (p : PilotState) (leftAngle rightAngle : ℚ) :
    PilotState :=
  { p with angle_offset := leftAngle - rightAngle }

/-- `Pilot.set_speed`. -/
def PilotState.set_speed (p : PilotState) (speed : ℚ) : PilotState :=
  { p with speed := speed }

/-- The heading formula stated by the claim (spec §4.7 read together with
§4.4): the encoder difference scaled by `wheel_diameter / (2 * axle_width)`.
Written from the spec's words for comparison with `get_angle`, which is
translated from the code. -/
def specGetAngle (p : PilotState) (leftAngle rightAngle : ℚ) : ℚ :=
  (leftAngle - rightAngle - p.angle_offset) * p.wheel_diameter
    / (2 * p.axle_width)

/-- The trace carried by a successful `steer` result (`[]` on error). -/
def okTrace (e : Except String Trace) : Trace := e.toOption.getD []

/-- The pilot built by the constructor with the default geometry of the
worked examples: `wheel_diameter = 56`, `axle_width = 100`,
`reverse = False`, both motors reading `0` at construction (so
`speed = 400` and `_angle_offset = 0`). -/
def defaultPilot : PilotState := PilotState.init 56 100 false 0 0

/-- Evaluation of `pyRound` away from the two half-integer boundaries of the
unit interval around `n`. -/
theorem pyRound_eq_of_bounds (n : ℤ) (x : ℚ) (h1 : (n : ℚ) - 1/2 < x)
    (h2 : x < (n : ℚ) + 1/2) : pyRound x = n := by
  have hfr : Int.fract x ≠ 1/2 := by
    intro h
    have hx : x = (⌊x⌋ : ℚ) + 1/2 := by
      have := Int.fract_add_floor x
      rw [h] at this
      linarith
    rw [hx] at h1 h2
    have hlt : (n : ℚ) - 1 < (⌊x⌋ : ℚ) := by linarith
    have hlt2 : (⌊x⌋ : ℚ) < (n : ℚ) := by linarith
    have hlt' : n - 1 < ⌊x⌋ := by exact_mod_cast hlt
    have hlt2' : ⌊x⌋ < n := by exact_mod_cast hlt2
    omega
  rw [pyRound, if_neg hfr, round_eq]
  have hfl : (n : ℚ) ≤ x + 1/2 := by linarith
  have hfu : x + 1/2 < (n : ℚ) + 1 := by linarith
  exact Int.floor_eq_iff.mpr ⟨by exact_mod_cast hfl, by exact_mod_cast hfu⟩

/-- `pyRound` is within a half of its argument. -/
theorem abs_pyRound_sub_le (x : ℚ) : |(pyRound x : ℚ) - x| ≤ 1/2 := by
  rw [pyRound]
  by_cases hfr : Int.fract x = 1/2
  · have hx : x = (⌊x⌋ : ℚ) + 1/2 := by
      have := Int.fract_add_floor x
      rw [hfr] at this
      linarith
    rw [if_pos hfr]
    set m := ⌊x⌋ with hm
    by_cases he : Even m
    · rw [if_pos he, abs_le]
      constructor <;> linarith
    · rw [if_neg he, abs_le]
      push_cast
      constructor <;> linarith
  · rw [if_neg hfr, abs_sub_comm]
    exact abs_sub_round x

/-- Sanity check of the tie behaviour of `pyRound` against Python, where
`round(2.5) == 2`. -/
theorem pyRound_half_even_pos : pyRound (5/2) = 2 := by
  norm_num [pyRound, Int.fract, round_eq]

/-- Sanity check of the tie behaviour of `pyRound` against Python, where
`round(-2.5) == -2`. -/
theorem pyRound_half_even_neg : pyRound (-5/2) = -2 := by
  norm_num [pyRound, Int.fract, round_eq]
  decide

/-- For nonzero `turn_rate` the computed ratio is never `1`, so the two
wheel speeds differ whenever `speed` is nonzero. -/
theorem steerRatio_ne_one (tr : ℚ) (h : tr ≠ 0) : steerRatio tr ≠ 1 := by
  have habs : 0 < |tr| := abs_pos.mpr h
  rw [steerRatio]
  by_cases hle : |tr| ≤ 100
  · rw [if_pos hle]
    intro hc
    have : |tr| = 0 := by linarith
    exact h (abs_eq_zero.mp this)
  · rw [if_neg hle]
    push_neg at hle
    intro hc
    have : |tr| = 0 := by linarith
    exact h (abs_eq_zero.mp this)

/-- The right and left wheel speeds computed in `steer` differ for nonzero
(clamped) `turn_rate` and nonzero `speed`. -/
theorem steerSpeeds_sub_ne_zero (p : PilotState) (tr : ℚ)
    (hs : p.speed ≠ 0) (htr : tr ≠ 0) :
    (p.steerSpeeds tr).2 - (p.steerSpeeds tr).1 ≠ 0 := by
  have hratio := steerRatio_ne_one tr htr
  have key : p.speed - p.speed * steerRatio tr ≠ 0 := by
    intro hc
    have h2 : p.speed * (1 - steerRatio tr) = 0 := by
      rw [mul_sub, mul_one]
      exact hc
    rcases mul_eq_zero.mp h2 with h3 | h3
    · exact hs h3
    · exact hratio (by linarith)
  rw [PilotState.steerSpeeds]
  by_cases hpos : tr > 0 <;> cases hb : p.reverse <;> simp [hpos] <;>
    · intro hc
      apply key
      linarith

/-- The divisor `omega` of `steer` step 6 is nonzero under the data-model
invariant (`wheel_diameter`, `axle_width` positive) whenever the base speed
and the clamped turn rate are nonzero. -/
theorem steerOmega_ne_zero (p : PilotState) (tr : ℚ) (hs : p.speed ≠ 0)
    (hd : 0 < p.wheel_diameter) (ha : 0 < p.axle_width) (htr : tr ≠ 0) :
    p.steerOmega tr ≠ 0 := by
  have hdiff := steerSpeeds_sub_ne_zero p tr hs htr
  have hpi : (0 : ℚ) < mathPi := by norm_num [mathPi]
  have hmpd : (mathPi * p.wheel_diameter) / 360 ≠ 0 :=
    ne_of_gt (div_pos (mul_pos hpi hd) (by norm_num))
  simp only [PilotState.steerOmega]
  have hnum : (p.steerSpeeds tr).2 * ((mathPi * p.wheel_diameter) / 360)
      - (p.steerSpeeds tr).1 * ((mathPi * p.wheel_diameter) / 360)
      = ((p.steerSpeeds tr).2 - (p.steerSpeeds tr).1)
        * ((mathPi * p.wheel_diameter) / 360) := by
    ring
  rw [hnum]
  exact div_ne_zero (mul_ne_zero hdiff hmpd) (ne_of_gt ha)

/-- With a nonzero clamped turn rate and a non-null angle, `steer` reaches
step 6 and, when `omega` is nonzero, returns the bounded-move trace followed
by the optional waits. -/
theorem steer_some_eq_ok (p : PilotState) (tr a : ℚ) (w : Bool)
    (t : Option ℚ) (hs : p.speed ≠ 0) (hd : 0 < p.wheel_diameter)
    (ha : 0 < p.axle_width) (htr : clamp200 tr ≠ 0) :
    ∃ cmds, p.steer tr (some a) w t
      = Except.ok (cmds ++ (if w then waitCmds t else [])) := by
  have hom := steerOmega_ne_zero p (clamp200 tr) hs hd ha htr
  rw [PilotState.steer]
  simp only [if_neg htr, if_neg hom]
  exact ⟨_, rfl⟩

/-- C3: for every pilot state, every non-null `angle`, and every
`wait_until_done`/`timeout`, `steer(0, angle)` raises `ValueError`; no motor
command is issued (the error result carries no trace) and, since `steer`
assigns no attribute, the pilot state is unchanged. -/
theorem C3_steer_zero_with_angle_fails (p : PilotState) (a : ℚ) (w : Bool)
    (t : Option ℚ) : p.steer 0 (some a) w t = Except.error "ValueError" := by
  have hc : clamp200 0 = 0 := by norm_num [clamp200]
  rw [PilotState.steer]
  simp [hc]

/-- C5: `steer(0)` with a null angle issues exactly the motor commands of
`forward()` and returns: both motors get `run_at_speed` with the same
signed rounded speed `direction * speed`, `direction = -1` iff `reverse`. -/
theorem C5_steer_zero_is_forward (p : PilotState) (w : Bool)
    (t : Option ℚ) :
    p.steer 0 none w t = Except.ok p.forward ∧
    p.forward =
      [(Side.left,
        MotorCmd.runAtSpeed (pyRound ((if p.reverse then (-1 : ℚ) else 1) * p.speed))),
       (Side.right,
        MotorCmd.runAtSpeed (pyRound ((if p.reverse then (-1 : ℚ) else 1) * p.speed)))] := by
  constructor
  · have hc : clamp200 0 = 0 := by norm_num [clamp200]
    rw [PilotState.steer]
    simp [hc]
  · rfl

/-- C8: if both motors report the same angles at the `reset_angle()` call
and at the immediately following `get_angle()` call, `get_angle()` returns
exactly `0` (the axle width being positive per the data-model invariant). -/
theorem C8_get_angle_after_reset (p : PilotState) (la ra : ℚ)
    (ha : 0 < p.axle_width) :
    (p.reset_angle la ra).get_angle la ra = 0 := by
  simp [PilotState.reset_angle, PilotState.get_angle]

/-- Witness for C8 at the default pilot with readings `5` and `3`. -/
theorem C8_get_angle_after_reset_witness :
    0 < defaultPilot.axle_width ∧
    (defaultPilot.reset_angle 5 3).get_angle 5 3 = 0 :=
  ⟨by norm_num [defaultPilot, PilotState.init],
   C8_get_angle_after_reset defaultPilot 5 3
     (by norm_num [defaultPilot, PilotState.init])⟩

/-- C6: `travel` converts the distance to wheel degrees via `_mm_to_deg`,
negates it if `reverse` is set, and issues the identical
`rotate_by_angle(degrees, speed, 0)` to both motors; with the default
geometry (`wheel_diameter = 56`, `speed = 400`), `travel(1000)` commands
both motors `rotate_by_angle(2046, 400, 0)`. -/
theorem C6_travel_command (p : PilotState) (d : ℚ) (w : Bool)
    (t : Option ℚ) :
    (p.travel d w t =
      [(Side.left, MotorCmd.rotateByAngle
         (if p.reverse then -(p.mm_to_deg d) else p.mm_to_deg d)
         (pyRound p.speed) 0),
       (Side.right, MotorCmd.rotateByAngle
         (if p.reverse then -(p.mm_to_deg d) else p.mm_to_deg d)
         (pyRound p.speed) 0)]
      ++ (if w then waitCmds t else [])) ∧
    defaultPilot.travel 1000 true none =
      [(Side.left, MotorCmd.rotateByAngle 2046 400 0),
       (Side.right, MotorCmd.rotateByAngle 2046 400 0),
       (Side.left, MotorCmd.waitForMovement none),
       (Side.right, MotorCmd.waitForMovement none)] := by
  constructor
  · rfl
  · have h1 : defaultPilot.mm_to_deg 1000 = 2046 := by
      rw [PilotState.mm_to_deg]
      exact pyRound_eq_of_bounds 2046 _
        (by norm_num [mathPi, defaultPilot, PilotState.init])
        (by norm_num [mathPi, defaultPilot, PilotState.init])
    have h2 : pyRound defaultPilot.speed = 400 :=
      pyRound_eq_of_bounds 400 _ (by norm_num [defaultPilot, PilotState.init])
        (by norm_num [defaultPilot, PilotState.init])
    have h3 : defaultPilot.reverse = false := rfl
    simp [PilotState.travel, h1, h2, h3, waitCmds]

/-- C7: `rotate` computes each wheel's command as
`_mm_to_deg((angle/360) * pi * axle_width)`; with `reverse` unset the left
wheel gets `+degrees` at `+speed` and the right wheel `-degrees` at
`-speed`; with the default geometry, `rotate(90)` commands left `+161` at
`+400` and right `-161` at `-400`. -/
theorem C7_rotate_command (p : PilotState) (angle : ℚ) (w : Bool)
    (t : Option ℚ) (hrev : p.reverse = false) :
    (p.rotate angle w t =
      [(Side.left, MotorCmd.rotateByAngle
          (p.mm_to_deg ((angle / 360) * mathPi * p.axle_width))
          (pyRound p.speed) 0),
       (Side.right, MotorCmd.rotateByAngle
          (-(p.mm_to_deg ((angle / 360) * mathPi * p.axle_width)))
          (pyRound (-p.speed)) 0)]
      ++ (if w then waitCmds t else [])) ∧
    defaultPilot.rotate 90 true none =
      [(Side.left, MotorCmd.rotateByAngle 161 400 0),
       (Side.right, MotorCmd.rotateByAngle (-161) (-400) 0),
       (Side.left, MotorCmd.waitForMovement none),
       (Side.right, MotorCmd.waitForMovement none)] := by
  constructor
  · simp [PilotState.rotate, hrev]
  · have h1 : defaultPilot.mm_to_deg
        ((90 / 360) * mathPi * defaultPilot.axle_width) = 161 := by
      rw [PilotState.mm_to_deg]
      exact pyRound_eq_of_bounds 161 _
        (by norm_num [mathPi, defaultPilot, PilotState.init])
        (by norm_num [mathPi, defaultPilot, PilotState.init])
    have h2 : pyRound defaultPilot.speed = 400 :=
      pyRound_eq_of_bounds 400 _ (by norm_num [defaultPilot, PilotState.init])
        (by norm_num [defaultPilot, PilotState.init])
    have h3 : pyRound (-defaultPilot.speed) = -400 :=
      pyRound_eq_of_bounds (-400) _
        (by norm_num [defaultPilot, PilotState.init])
        (by norm_num [defaultPilot, PilotState.init])
    have h4 : defaultPilot.reverse = false := rfl
    simp [PilotState.rotate, h1, h2, h3, h4, waitCmds]

/-- Witness for C7 at the default pilot, `rotate(90)`. -/
theorem C7_rotate_command_witness :
    defaultPilot.reverse = false ∧
    ((defaultPilot.rotate 90 true none =
      [(Side.left, MotorCmd.rotateByAngle
          (defaultPilot.mm_to_deg ((90 / 360) * mathPi * defaultPilot.axle_width))
          (pyRound defaultPilot.speed) 0),
       (Side.right, MotorCmd.rotateByAngle
          (-(defaultPilot.mm_to_deg ((90 / 360) * mathPi * defaultPilot.axle_width)))
          (pyRound (-defaultPilot.speed)) 0)]
      ++ (if true then waitCmds none else [])) ∧
    defaultPilot.rotate 90 true none =
      [(Side.left, MotorCmd.rotateByAngle 161 400 0),
       (Side.right, MotorCmd.rotateByAngle (-161) (-400) 0),
       (Side.left, MotorCmd.waitForMovement none),
       (Side.right, MotorCmd.waitForMovement none)]) :=
  ⟨rfl, C7_rotate_command defaultPilot 90 true none rfl⟩

/-- C9: for every `x` and strictly positive wheel diameter, the round trip
`deg_to_mm(_mm_to_deg(x))` differs from `x` by at most half a wheel-degree
of linear distance, `(1/2) * pi * wheel_diameter / 360`. -/
theorem C9_roundtrip (p : PilotState) (x : ℚ) (hd : 0 < p.wheel_diameter) :
    |p.deg_to_mm (p.mm_to_deg x) - x|
      ≤ 1/2 * mathPi * p.wheel_diameter / 360 := by
  have hpi : (0 : ℚ) < mathPi := by norm_num [mathPi]
  have hmd : mathPi * p.wheel_diameter ≠ 0 := ne_of_gt (mul_pos hpi hd)
  rw [PilotState.deg_to_mm, PilotState.mm_to_deg]
  have hx : (pyRound (x * 360 / (mathPi * p.wheel_diameter)) : ℚ)
        * (mathPi * p.wheel_diameter) / 360 - x
      = ((pyRound (x * 360 / (mathPi * p.wheel_diameter)) : ℚ)
          - x * 360 / (mathPi * p.wheel_diameter))
        * (mathPi * p.wheel_diameter) / 360 := by
    field_simp
    ring
  rw [hx, abs_div, abs_mul]
  have h360 : |(360 : ℚ)| = 360 := by norm_num
  have hmdpos : (0 : ℚ) < mathPi * p.wheel_diameter := mul_pos hpi hd
  rw [h360, abs_of_pos hmdpos]
  have hb := abs_pyRound_sub_le (x * 360 / (mathPi * p.wheel_diameter))
  calc |(pyRound (x * 360 / (mathPi * p.wheel_diameter)) : ℚ)
          - x * 360 / (mathPi * p.wheel_diameter)|
        * (mathPi * p.wheel_diameter) / 360
      ≤ (1/2) * (mathPi * p.wheel_diameter) / 360 := by gcongr
    _ = 1/2 * mathPi * p.wheel_diameter / 360 := by ring

/-- Witness for C9 at the default pilot, `x = 1000`. -/
theorem C9_roundtrip_witness :
    0 < defaultPilot.wheel_diameter ∧
    |defaultPilot.deg_to_mm (defaultPilot.mm_to_deg 1000) - 1000|
      ≤ 1/2 * mathPi * defaultPilot.wheel_diameter / 360 :=
  ⟨by norm_num [defaultPilot, PilotState.init],
   C9_roundtrip defaultPilot 1000 (by norm_num [defaultPilot, PilotState.init])⟩

/-- C4: for a nonzero turn rate in `[-200, 200]` with `reverse` unset, the
clamp is the identity, the outer wheel's computed speed is exactly `speed`
and the inner wheel's is `speed * ratio` with
`ratio = 1 - |tr|/100` for `|tr| ≤ 100` and `-(|tr| - 100)/100` otherwise
(positive `tr` reducing/reversing the left wheel); `steer(100)` gives inner
speed exactly `0` and `steer(200)` gives speeds of equal magnitude and
opposite sign. -/
theorem C4_steer_speed_formula (p : PilotState) (tr : ℚ)
    (h1 : -200 ≤ tr) (h2 : tr ≤ 200) (h0 : tr ≠ 0)
    (hrev : p.reverse = false) :
    clamp200 tr = tr ∧
    p.steerSpeeds tr =
      (if 0 < tr
       then (p.speed * (if |tr| ≤ 100 then 1 - |tr| / 100
                        else -(|tr| - 100) / 100), p.speed)
       else (p.speed, p.speed * (if |tr| ≤ 100 then 1 - |tr| / 100
                                 else -(|tr| - 100) / 100))) ∧
    p.steerSpeeds 100 = (0, p.speed) ∧
    p.steerSpeeds 200 = (-p.speed, p.speed) := by
  refine ⟨?_, ?_, ?_, ?_⟩
  · rw [clamp200, min_eq_right h2, max_eq_right h1]
  · simp [PilotState.steerSpeeds, steerRatio, hrev, gt_iff_lt]
  · norm_num [PilotState.steerSpeeds, steerRatio, hrev]
  · norm_num [PilotState.steerSpeeds, steerRatio, hrev]

/-- Witness for C4 at the default pilot, `turn_rate = 150`. -/
theorem C4_steer_speed_formula_witness :
    (-200 ≤ (150 : ℚ)) ∧ ((150 : ℚ) ≤ 200) ∧ ((150 : ℚ) ≠ 0) ∧
    defaultPilot.reverse = false ∧
    (clamp200 150 = 150 ∧
     defaultPilot.steerSpeeds 150 =
       (if 0 < (150 : ℚ)
        then (defaultPilot.speed * (if |(150 : ℚ)| ≤ 100 then 1 - |(150 : ℚ)| / 100
                         else -(|(150 : ℚ)| - 100) / 100), defaultPilot.speed)
        else (defaultPilot.speed,
              defaultPilot.speed * (if |(150 : ℚ)| ≤ 100 then 1 - |(150 : ℚ)| / 100
                         else -(|(150 : ℚ)| - 100) / 100))) ∧
     defaultPilot.steerSpeeds 100 = (0, defaultPilot.speed) ∧
     defaultPilot.steerSpeeds 200 = (-defaultPilot.speed, defaultPilot.speed)) :=
  ⟨by norm_num, by norm_num, by norm_num, rfl,
   C4_steer_speed_formula defaultPilot 150 (by norm_num) (by norm_num)
     (by norm_num) rfl⟩

/-- Counterexample to C1 as stated: at the default geometry
(`wheel_diameter = 56`, `axle_width = 100`) with encoder difference `360`,
`get_angle` does not return the arc-length inversion
`difference * wheel_diameter / (2 * axle_width)` (the code yields
`324/pi ≈ 103.1`, the claimed formula `100.8`). -/
theorem C1_counterexample :
    defaultPilot.get_angle 360 0 ≠ specGetAngle defaultPilot 360 0 := by
  norm_num [defaultPilot, PilotState.init, PilotState.get_angle, specGetAngle,
    mathPi]

/-- C1 (amended): `get_angle` scales the encoder difference by
`360 / (4 * pi * axle_width)`; equivalently it equals the claimed §4.4
inversion only with the configured wheel diameter replaced by the hard-coded
constant `360 / (2 * pi) ≈ 57.3 mm`, and the result does not depend on
`wheel_diameter` at all. -/
theorem C1_get_angle_scale (p : PilotState) (la ra d1 d2 : ℚ)
    (ha : p.axle_width ≠ 0) :
    p.get_angle la ra
      = specGetAngle
          ⟨360 / (2 * mathPi), p.axle_width, p.reverse, p.speed, p.angle_offset⟩
          la ra ∧
    PilotState.get_angle
        ⟨d1, p.axle_width, p.reverse, p.speed, p.angle_offset⟩ la ra
      = PilotState.get_angle
          ⟨d2, p.axle_width, p.reverse, p.speed, p.angle_offset⟩ la ra := by
  constructor
  · simp only [PilotState.get_angle, specGetAngle]
    have hpi : mathPi ≠ 0 := by norm_num [mathPi]
    field_simp
    exact Or.inl (by ring)
  · rfl

/-- Witness for C1's amended theorem at the default pilot with encoder
difference `360` and wheel diameters `56` and `5000`. -/
theorem C1_get_angle_scale_witness :
    defaultPilot.axle_width ≠ 0 ∧
    (defaultPilot.get_angle 360 0
       = specGetAngle
           ⟨360 / (2 * mathPi), defaultPilot.axle_width, defaultPilot.reverse,
            defaultPilot.speed, defaultPilot.angle_offset⟩ 360 0 ∧
     PilotState.get_angle
         ⟨56, defaultPilot.axle_width, defaultPilot.reverse,
          defaultPilot.speed, defaultPilot.angle_offset⟩ 360 0
       = PilotState.get_angle
           ⟨5000, defaultPilot.axle_width, defaultPilot.reverse,
            defaultPilot.speed, defaultPilot.angle_offset⟩ 360 0) :=
  ⟨by norm_num [defaultPilot, PilotState.init],
   C1_get_angle_scale defaultPilot 360 0 56 5000
     (by norm_num [defaultPilot, PilotState.init])⟩

/-- Counterexample to C2 as stated: with base speed `0` (reachable via
`set_speed(0)`, a legal Pilot state), `steer(100, 90)` computes equal wheel
speeds, `omega = 0`, and the division in step 6 fails. -/
theorem C2_counterexample :
    (defaultPilot.set_speed 0).steer 100 (some 90) true none
      = Except.error "ZeroDivisionError" := by
  norm_num [defaultPilot, PilotState.init, PilotState.set_speed,
    PilotState.steer, clamp200, PilotState.steerOmega, PilotState.steerSpeeds,
    steerRatio]

/-- C2 (amended): for every Pilot state with nonzero base speed satisfying
the data-model invariant (`wheel_diameter`, `axle_width` positive) and every
nonzero clamped turn rate, the divisor `omega` of step 6 is nonzero and
`steer` with a non-null angle succeeds (no division by zero). -/
theorem C2_steer_omega_nonzero (p : PilotState) (tr a : ℚ) (w : Bool)
    (t : Option ℚ) (hs : p.speed ≠ 0) (hd : 0 < p.wheel_diameter)
    (ha : 0 < p.axle_width) (htr : clamp200 tr ≠ 0) :
    p.steerOmega (clamp200 tr) ≠ 0 ∧
    (p.steer tr (some a) w t).toOption.isSome = true := by
  refine ⟨steerOmega_ne_zero p (clamp200 tr) hs hd ha htr, ?_⟩
  obtain ⟨c, hc⟩ := steer_some_eq_ok p tr a w t hs hd ha htr
  rw [hc]
  rfl

/-- Witness for C2's amended theorem at the default pilot,
`steer(100, 90)`. -/
theorem C2_steer_omega_nonzero_witness :
    defaultPilot.speed ≠ 0 ∧ 0 < defaultPilot.wheel_diameter ∧
    0 < defaultPilot.axle_width ∧ clamp200 100 ≠ 0 ∧
    (defaultPilot.steerOmega (clamp200 100) ≠ 0 ∧
     (defaultPilot.steer 100 (some 90) true none).toOption.isSome = true) :=
  ⟨by norm_num [defaultPilot, PilotState.init],
   by norm_num [defaultPilot, PilotState.init],
   by norm_num [defaultPilot, PilotState.init],
   by norm_num [clamp200],
   C2_steer_omega_nonzero defaultPilot 100 90 true none
     (by norm_num [defaultPilot, PilotState.init])
     (by norm_num [defaultPilot, PilotState.init])
     (by norm_num [defaultPilot, PilotState.init])
     (by norm_num [clamp200])⟩

/-- C10: every bounded move that waits with a non-null timeout `t` ends by
passing `t * 1000` to the left motor's `wait_for_movement` and then the
right motor's, independently (the Pilot-level timeout is in seconds, the
motor capability takes milliseconds). -/
theorem C10_timeout_conversion (p : PilotState) (d ang tr a t : ℚ)
    (hs : p.speed ≠ 0) (hd : 0 < p.wheel_diameter) (ha : 0 < p.axle_width)
    (htr : clamp200 tr ≠ 0) :
    [(Side.left, MotorCmd.waitForMovement (some (t * 1000))),
     (Side.right, MotorCmd.waitForMovement (some (t * 1000)))]
      <:+ p.travel d true (some t) ∧
    [(Side.left, MotorCmd.waitForMovement (some (t * 1000))),
     (Side.right, MotorCmd.waitForMovement (some (t * 1000)))]
      <:+ p.rotate ang true (some t) ∧
    (p.steer tr (some a) true (some t)).toOption.isSome = true ∧
    [(Side.left, MotorCmd.waitForMovement (some (t * 1000))),
     (Side.right, MotorCmd.waitForMovement (some (t * 1000)))]
      <:+ okTrace (p.steer tr (some a) true (some t)) := by
  obtain ⟨c, hc⟩ := steer_some_eq_ok p tr a true (some t) hs hd ha htr
  refine ⟨?_, ?_, ?_, ?_⟩
  · exact List.suffix_append _ _
  · exact List.suffix_append _ _
  · rw [hc]
    rfl
  · have h2 : okTrace (p.steer tr (some a) true (some t))
        = c ++ waitCmds (some t) := by
      rw [hc]
      rfl
    rw [h2]
    exact List.suffix_append _ _

/-- Witness for C10 at the default pilot, `travel(1000)`, `rotate(90)`,
`steer(100, 90)`, timeout `2` seconds. -/
theorem C10_timeout_conversion_witness :
    defaultPilot.speed ≠ 0 ∧ 0 < defaultPilot.wheel_diameter ∧
    0 < defaultPilot.axle_width ∧ clamp200 100 ≠ 0 ∧
    ([(Side.left, MotorCmd.waitForMovement (some ((2 : ℚ) * 1000))),
      (Side.right, MotorCmd.waitForMovement (some ((2 : ℚ) * 1000)))]
       <:+ defaultPilot.travel 1000 true (some 2) ∧
     [(Side.left, MotorCmd.waitForMovement (some ((2 : ℚ) * 1000))),
      (Side.right, MotorCmd.waitForMovement (some ((2 : ℚ) * 1000)))]
       <:+ defaultPilot.rotate 90 true (some 2) ∧
     (defaultPilot.steer 100 (some 90) true (some 2)).toOption.isSome = true ∧
     [(Side.left, MotorCmd.waitForMovement (some ((2 : ℚ) * 1000))),
      (Side.right, MotorCmd.waitForMovement (some ((2 : ℚ) * 1000)))]
       <:+ okTrace (defaultPilot.steer 100 (some 90) true (some 2))) :=
  ⟨by norm_num [defaultPilot, PilotState.init],
   by norm_num [defaultPilot, PilotState.init],
   by norm_num [defaultPilot, PilotState.init],
   by norm_num [clamp200],
   C10_timeout_conversion defaultPilot 1000 90 100 90 2
     (by norm_num [defaultPilot, PilotState.init])
     (by norm_num [defaultPilot, PilotState.init])
     (by norm_num [defaultPilot, PilotState.init])
     (by norm_num [clamp200])⟩
